import Mathlib

/-!
Shallow embedding of the Ceph bucket-notification receive adapter
(`pkg/adapter/adapter.go`): the record-to-CloudEvent mapper `postMessage`,
the delivery step `sendCloudEvent`, and the HTTP ingress `postHandler`
with its fail-fast batch loop.

External library calls (RFC3339 time parsing, JSON marshalling and
unmarshalling, and the CloudEvents client send) are modelled as
parameters gathered in an `Env` structure; the control flow and the
field derivations are translated directly from the Go source.
Calls to the delivery client and to the mapper are instrumented as
explicit trace lists so that claims about "how many times the delivery
client is invoked" become statements about list lengths.
-/

set_option autoImplicit false

namespace CephAdapter

/-- Modelled from the spec: the `responseElements` part of a raw
notification record, carrying the two response-correlation identifiers
`x-amz-request-id` and `x-amz-id-2`. The Go type lives in
`pkg/apis/bindings/v1alpha1`, outside the provided source tree; its
fields are taken from the spec's raw schema (section 6). -/
structure NotificationResponseElements where
  XAmzRequestID : String
  XAmzID2 : String
deriving Repr, DecidableEq

/-- Modelled from the spec: the `s3.bucket` part of a raw record. -/
structure NotificationBucket where
  Name : String
deriving Repr, DecidableEq

/-- Modelled from the spec: the `s3.object` part of a raw record. -/
structure NotificationObject where
  Key : String
deriving Repr, DecidableEq

/-- Modelled from the spec: the `s3` part of a raw record. -/
structure NotificationS3 where
  Bucket : NotificationBucket
  Object : NotificationObject
deriving Repr, DecidableEq

/-- Modelled from the spec: one raw bucket-notification record
(`ceph.BucketNotification`), with the fields `postMessage` reads:
`eventTime`, `eventName`, `eventSource`, `awsRegion`, `s3.bucket.name`,
`s3.object.key` and the two correlation identifiers. -/
structure BucketNotification where
  EventTime : String
  EventName : String
  EventSource : String
  AwsRegion : String
  S3 : NotificationS3
  ResponseElements : NotificationResponseElements
deriving Repr, DecidableEq

/-- The normalized outbound event envelope, with the fields set by
`postMessage` (adapter.go lines 98-104): id, source, type, subject,
time, and the data payload with its content-type tag. Time is an
abstract instant, modelled as a natural number. -/
structure CloudEvent where
  id : String
  source : String
  type : String
  subject : String
  time : Nat
  dataContentType : String
  data : String
deriving Repr, DecidableEq

/-- The environment of external library operations the adapter calls:
`parseRFC3339` models `time.Parse(time.RFC3339, _)` (`none` = parse
error), `now` models `time.Now()`, `serialize` models the JSON
marshalling done by `event.SetData` (`.error` = marshalling failure
with its cause), `send` models `ca.client.Send` composed with
`cloudevents.IsACK` (`none` = acknowledged, `some cause` = negative
acknowledgement or transport error), and `decode` models
`json.Unmarshal` of the request body into `BucketNotifications`
(yielding the `Records` list). -/
structure Env where
  parseRFC3339 : String → Option Nat
  now : Nat
  serialize : BucketNotification → Except String String
  send : CloudEvent → Option String
  decode : String → Except String (List BucketNotification)

/-- The envelope built by `postMessage` from a record and an
already-serialized data payload (adapter.go lines 92-103): the event
time is the parsed `eventTime`, falling back to the current time when
parsing fails; `"application/json"` is `cloudevents.ApplicationJSON`. -/
def mkEvent (env : Env) (n : BucketNotification) (payload : String) : CloudEvent :=
  { id := n.ResponseElements.XAmzRequestID ++ n.ResponseElements.XAmzID2
    source := n.EventSource ++ "." ++ n.AwsRegion ++ "." ++ n.S3.Bucket.Name
    type := "com.amazonaws." ++ n.EventName
    subject := n.S3.Object.Key
    time := (env.parseRFC3339 n.EventTime).getD env.now
    dataContentType := "application/json"
    data := payload }

/-- The mapping part of `postMessage` (adapter.go lines 92-107): build
the envelope and attach the serialized record as its data; if
`event.SetData` fails, fail with the wrapped marshalling error
(`fmt.Errorf("failed to marshal event data: %w", err)`) and produce no
envelope. -/
def mapRecord (env : Env) (n : BucketNotification) : Except String CloudEvent :=
  match env.serialize n with
  | .error c => .error ("failed to marshal event data: " ++ c)
  | .ok payload => .ok (mkEvent env n payload)

/-- `sendCloudEvent` (adapter.go lines 120-132): one transport round
trip; a non-acknowledged result is returned as the error, an
acknowledged send returns success. -/
def sendCloudEvent (env : Env) (ev : CloudEvent) : Option String :=
  env.send ev

/-- `postMessage` (adapter.go lines 91-117), instrumented: maps one
record and, when mapping succeeded, sends the envelope. Returns the
error outcome (`none` = success) together with the list of envelopes
passed to the delivery client (empty when mapping failed, a singleton
when a send was attempted, whether or not it was acknowledged). -/
def postMessage (env : Env) (n : BucketNotification) :
    Option String × List CloudEvent :=
  match mapRecord env n with
  | .error e => (some e, [])
  | .ok ev => (sendCloudEvent env ev, [ev])

/-- The fail-fast batch loop of `postHandler` (adapter.go lines
159-165), instrumented: processes records in order, stopping at the
first failing one. Returns the batch outcome (`none` = all records
succeeded), the list of records passed to `postMessage` (the mapper
invocations), and the concatenated list of envelopes passed to the
delivery client. -/
def processRecords (env : Env) :
    List BucketNotification →
    Option String × List BucketNotification × List CloudEvent
  | [] => (none, [], [])
  | n :: rest =>
    let p := postMessage env n
    if p.1.isSome then
      (p.1, [n], p.2)
    else
      let r := processRecords env rest
      (r.1, n :: r.2.1, p.2 ++ r.2.2)

/-- An inbound HTTP request as `postHandler` observes it: the method
string and the result of `ioutil.ReadAll(r.Body)` (`.error` = body
read failure). -/
structure HttpRequest where
  method : String
  body : Except String String
deriving Repr

/-- An outbound HTTP response: status code, body text, and the value of
the `Allow` response header if set. `http.Error` writes the given
status and message; falling off the handler without writing yields the
implicit 200 with an empty body. -/
structure HttpResponse where
  status : Nat
  body : String
  allow : Option String
deriving Repr, DecidableEq

/-- `postHandler` (adapter.go lines 135-166), instrumented like
`processRecords`: sets the `Allow: POST` header first, rejects non-POST
methods with status 400 (`http.StatusBadRequest`) and body
`"405 Method Not Allowed"`, rejects body-read and JSON-decode failures
with status 400 echoing the error text, then runs the fail-fast loop,
turning its first error into a 400 response and full success into the
implicit empty 200. The two trace components are the mapper and
delivery-client invocations. -/
def postHandler (env : Env) (r : HttpRequest) :
    HttpResponse × List BucketNotification × List CloudEvent :=
  if r.method ≠ "POST" then
    ({ status := 400, body := "405 Method Not Allowed", allow := some "POST" }, [], [])
  else
    match r.body with
    | .error e => ({ status := 400, body := e, allow := some "POST" }, [], [])
    | .ok rawBody =>
      match env.decode rawBody with
      | .error e => ({ status := 400, body := e, allow := some "POST" }, [], [])
      | .ok records =>
        match processRecords env records with
        | (some e, ms, evs) =>
          ({ status := 400, body := e, allow := some "POST" }, ms, evs)
        | (none, ms, evs) =>
          ({ status := 200, body := "", allow := some "POST" }, ms, evs)

/-- A record succeeds when `postMessage` reports no error: it was
mapped and its envelope acknowledged. -/
def recordOk (env : Env) (n : BucketNotification) : Bool :=
  (postMessage env n).1.isNone

/-- The envelope a successfully processed record puts on the wire
(its serialized payload attached). -/
def sentEvent (env : Env) (n : BucketNotification) : CloudEvent :=
  mkEvent env n (match env.serialize n with | .ok d => d | .error _ => "")

/-! ### Basic lemmas about one record -/

theorem postMessage_of_recordOk (env : Env) (n : BucketNotification)
    (h : recordOk env n = true) :
    postMessage env n = (none, [sentEvent env n]) := by
  rw [recordOk] at h
  cases hs : env.serialize n with
  | error c =>
    simp only [postMessage, mapRecord, hs] at h
    simp at h
  | ok d =>
    simp only [postMessage, mapRecord, hs] at h ⊢
    simp only [Option.isNone_iff_eq_none] at h
    simp [sentEvent, hs, h]

theorem postMessage_sent_length (env : Env) (n : BucketNotification) :
    (postMessage env n).2.length =
      (if (mapRecord env n).isOk then 1 else 0) := by
  unfold postMessage
  cases h : mapRecord env n <;> simp [h, Except.isOk, Except.toBool]

theorem recordOk_false_of_serialize_error (env : Env) (n : BucketNotification)
    (c : String) (hs : env.serialize n = .error c) :
    recordOk env n = false := by
  unfold recordOk postMessage mapRecord
  rw [hs]
  rfl

/-! ### Lemmas about the fail-fast loop -/

theorem processRecords_nil (env : Env) :
    processRecords env [] = (none, [], []) := rfl

theorem processRecords_cons (env : Env) (n : BucketNotification)
    (rest : List BucketNotification) :
    processRecords env (n :: rest) =
      (if (postMessage env n).1.isSome then
        ((postMessage env n).1, [n], (postMessage env n).2)
      else
        ((processRecords env rest).1,
         n :: (processRecords env rest).2.1,
         (postMessage env n).2 ++ (processRecords env rest).2.2)) := by
  simp only [processRecords]

theorem processRecords_cons_ok (env : Env) (n : BucketNotification)
    (rest : List BucketNotification) (h : recordOk env n = true) :
    processRecords env (n :: rest) =
      ((processRecords env rest).1,
       n :: (processRecords env rest).2.1,
       sentEvent env n :: (processRecords env rest).2.2) := by
  rw [processRecords_cons, postMessage_of_recordOk env n h]
  simp

theorem processRecords_cons_fail (env : Env) (n : BucketNotification)
    (rest : List BucketNotification) (h : recordOk env n = false) :
    processRecords env (n :: rest) =
      ((postMessage env n).1, [n], (postMessage env n).2) := by
  rw [recordOk, Option.isNone_eq_false_iff, Option.isSome_iff_exists] at h
  obtain ⟨e, he⟩ := h
  rw [processRecords_cons]
  simp [he]

theorem processRecords_all_ok (env : Env) (l : List BucketNotification)
    (h : ∀ n ∈ l, recordOk env n = true) :
    processRecords env l = (none, l, l.map (sentEvent env)) := by
  induction l with
  | nil => rfl
  | cons n rest ih =>
    rw [processRecords_cons_ok env n rest (h n (by simp)),
        ih (fun m hm => h m (by simp [hm]))]
    simp

theorem processRecords_ok_iff (env : Env) (l : List BucketNotification) :
    (processRecords env l).1 = none ↔ ∀ n ∈ l, recordOk env n = true := by
  induction l with
  | nil => simp [processRecords_nil]
  | cons n rest ih =>
    cases hn : recordOk env n with
    | false =>
      rw [processRecords_cons_fail env n rest hn]
      rw [recordOk, Option.isNone_eq_false_iff, Option.isSome_iff_exists] at hn
      obtain ⟨e, he⟩ := hn
      simp only [he, List.mem_cons]
      constructor
      · intro hc; cases hc
      · intro hall
        have := hall n (Or.inl rfl)
        rw [recordOk, he] at this
        cases this
    | true =>
      rw [processRecords_cons_ok env n rest hn]
      simp only [List.mem_cons]
      constructor
      · intro h1 m hm
        rcases hm with rfl | hm
        · exact hn
        · exact ih.mp h1 m hm
      · intro hall
        exact ih.mpr (fun m hm => hall m (Or.inr hm))

theorem processRecords_first_fail (env : Env) (pre : List BucketNotification)
    (n : BucketNotification) (rest : List BucketNotification)
    (hpre : ∀ m ∈ pre, recordOk env m = true)
    (hn : recordOk env n = false) :
    processRecords env (pre ++ n :: rest) =
      ((postMessage env n).1,
       pre ++ [n],
       pre.map (sentEvent env) ++ (postMessage env n).2) := by
  induction pre with
  | nil =>
    simp only [List.nil_append, List.map_nil]
    rw [processRecords_cons_fail env n rest hn]
  | cons m pre ih =>
    have hm : recordOk env m = true := hpre m (by simp)
    rw [List.cons_append, processRecords_cons_ok env m _ hm,
        ih (fun x hx => hpre x (by simp [hx]))]
    simp

/-! ### Lemmas about the ingress handler -/

theorem mapRecord_eq_ok (env : Env) (n : BucketNotification) (ev : CloudEvent) :
    mapRecord env n = .ok ev ↔
      ∃ d, env.serialize n = .ok d ∧ ev = mkEvent env n d := by
  cases hs : env.serialize n with
  | error c => simp [mapRecord, hs]
  | ok d =>
    simp only [mapRecord, hs, Except.ok.injEq]
    constructor
    · intro h; exact ⟨d, rfl, h.symm⟩
    · rintro ⟨d', hd', rfl⟩
      cases hd'
      rfl

theorem postHandler_success (env : Env) (r : HttpRequest) (rawBody : String)
    (records : List BucketNotification) (hm : r.method = "POST")
    (hb : r.body = .ok rawBody) (hd : env.decode rawBody = .ok records)
    (hp : (processRecords env records).1 = none) :
    postHandler env r =
      ({ status := 200, body := "", allow := some "POST" },
       (processRecords env records).2.1, (processRecords env records).2.2) := by
  rcases hq : processRecords env records with ⟨res, ms, evs⟩
  rw [hq] at hp
  subst hp
  simp [postHandler, hm, hb, hd, hq]

theorem postHandler_failure (env : Env) (r : HttpRequest) (rawBody : String)
    (records : List BucketNotification) (e : String) (hm : r.method = "POST")
    (hb : r.body = .ok rawBody) (hd : env.decode rawBody = .ok records)
    (hp : (processRecords env records).1 = some e) :
    postHandler env r =
      ({ status := 400, body := e, allow := some "POST" },
       (processRecords env records).2.1, (processRecords env records).2.2) := by
  rcases hq : processRecords env records with ⟨res, ms, evs⟩
  rw [hq] at hp
  subst hp
  simp [postHandler, hm, hb, hd, hq]

/-! ### Concrete fixtures

The record of the spec's concrete scenario (section 8) and variants of
it, together with a concrete environment used to exercise the theorems
below on closed inputs. In `testEnv`, serialization fails exactly on
records whose event name is `"poison"`, the sink rejects exactly the
envelopes whose type corresponds to the event name `"nack"`, and the
decoder recognises a few fixed bodies. -/

def sampleRecord : BucketNotification :=
  { EventTime := "2021-01-01T00:00:00Z"
    EventName := "ObjectCreated:Put"
    EventSource := "ceph:s3"
    AwsRegion := "us-east-1"
    S3 := { Bucket := { Name := "mybucket" }, Object := { Key := "file.txt" } }
    ResponseElements := { XAmzRequestID := "abc", XAmzID2 := "123" } }

def record2 : BucketNotification :=
  { sampleRecord with
    S3 := { Bucket := { Name := "mybucket" }, Object := { Key := "file2.txt" } } }

def badTimeRecord : BucketNotification :=
  { sampleRecord with EventTime := "not-a-time" }

def poisonRecord : BucketNotification :=
  { sampleRecord with EventName := "poison" }

def poisonBadTimeRecord : BucketNotification :=
  { sampleRecord with EventName := "poison", EventTime := "not-a-time" }

def nackRecord : BucketNotification :=
  { sampleRecord with EventName := "nack" }

def emptyIdRecord : BucketNotification :=
  { sampleRecord with ResponseElements := { XAmzRequestID := "", XAmzID2 := "" } }

def testEnv : Env :=
  { parseRFC3339 := fun s => if s = "2021-01-01T00:00:00Z" then some 1609459200 else none
    now := 1700000000
    serialize := fun n => if n.EventName = "poison" then .error "boom" else .ok "payload"
    send := fun ev => if ev.type = "com.amazonaws.nack" then some "nack cause" else none
    decode := fun s =>
      if s = "empty" then .ok []
      else if s = "pair" then .ok [sampleRecord, record2]
      else if s = "poisonbatch" then .ok [sampleRecord, poisonRecord, record2]
      else if s = "nackbatch" then .ok [sampleRecord, nackRecord, record2]
      else .error "invalid JSON payload" }

/-! ### Claim theorems -/

/-- C1: for every record from which the mapper produces an envelope, the
envelope's id is the concatenation of the record's two
response-correlation identifiers (x-amz-request-id followed by
x-amz-id-2), its source is the dotted string
eventSource.awsRegion.bucketName, its type is the fixed vendor prefix
"com.amazonaws." concatenated with the raw event name, and its subject
is the object key. -/
theorem c1_envelope_field_derivation (env : Env) (n : BucketNotification)
    (ev : CloudEvent) (h : mapRecord env n = .ok ev) :
    ev.id = n.ResponseElements.XAmzRequestID ++ n.ResponseElements.XAmzID2 ∧
    ev.source = n.EventSource ++ "." ++ n.AwsRegion ++ "." ++ n.S3.Bucket.Name ∧
    ev.type = "com.amazonaws." ++ n.EventName ∧
    ev.subject = n.S3.Object.Key := by
  obtain ⟨d, _, rfl⟩ := (mapRecord_eq_ok env n ev).mp h
  exact ⟨rfl, rfl, rfl, rfl⟩

/-- C1 witness: the spec's concrete scenario record, mapped under the
concrete test environment. -/
theorem c1_envelope_field_derivation_witness :
    mapRecord testEnv sampleRecord = .ok (sentEvent testEnv sampleRecord) ∧
    ((sentEvent testEnv sampleRecord).id =
        sampleRecord.ResponseElements.XAmzRequestID ++
          sampleRecord.ResponseElements.XAmzID2 ∧
     (sentEvent testEnv sampleRecord).source =
        sampleRecord.EventSource ++ "." ++ sampleRecord.AwsRegion ++ "." ++
          sampleRecord.S3.Bucket.Name ∧
     (sentEvent testEnv sampleRecord).type =
        "com.amazonaws." ++ sampleRecord.EventName ∧
     (sentEvent testEnv sampleRecord).subject = sampleRecord.S3.Object.Key) :=
  ⟨rfl, c1_envelope_field_derivation testEnv sampleRecord
    (sentEvent testEnv sampleRecord) rfl⟩

/-- C5: a request whose method is not POST is rejected without invoking
the batch loop: the mapper and delivery traces are empty, and the
response is the error the code writes for a bad method (status 400 with
body "405 Method Not Allowed") carrying the Allow: POST header. -/
theorem c5_non_post_rejected (env : Env) (r : HttpRequest)
    (h : r.method ≠ "POST") :
    postHandler env r =
      ({ status := 400, body := "405 Method Not Allowed", allow := some "POST" },
       [], []) := by
  unfold postHandler
  rw [if_pos h]

/-- C5 witness: a concrete GET request. -/
theorem c5_non_post_rejected_witness :
    ({ method := "GET", body := .ok "pair" } : HttpRequest).method ≠ "POST" ∧
    postHandler testEnv { method := "GET", body := .ok "pair" } =
      ({ status := 400, body := "405 Method Not Allowed", allow := some "POST" },
       [], []) :=
  ⟨by decide, c5_non_post_rejected testEnv { method := "GET", body := .ok "pair" }
    (by decide)⟩

/-- C6: a POST request whose body does not decode as a notification
batch is rejected with the decode error as the response body, and no
record is processed: both the mapper trace and the delivery trace are
empty. -/
theorem c6_decode_failure_rejected (env : Env) (r : HttpRequest)
    (rawBody e : String) (hm : r.method = "POST") (hb : r.body = .ok rawBody)
    (hd : env.decode rawBody = .error e) :
    postHandler env r =
      ({ status := 400, body := e, allow := some "POST" }, [], []) := by
  simp [postHandler, hm, hb, hd]

/-- C6 witness: a concrete undecodable body. -/
theorem c6_decode_failure_rejected_witness :
    ({ method := "POST", body := .ok "garbage" } : HttpRequest).method = "POST" ∧
    ({ method := "POST", body := .ok "garbage" } : HttpRequest).body = .ok "garbage" ∧
    testEnv.decode "garbage" = .error "invalid JSON payload" ∧
    postHandler testEnv { method := "POST", body := .ok "garbage" } =
      ({ status := 400, body := "invalid JSON payload", allow := some "POST" },
       [], []) :=
  ⟨rfl, rfl, rfl,
   c6_decode_failure_rejected testEnv { method := "POST", body := .ok "garbage" }
     "garbage" "invalid JSON payload" rfl rfl rfl⟩

/-- C9: every response the handler produces carries the Allow: POST
header, whatever the method, body, decode result or per-record outcome,
because the header is set before any request inspection. -/
theorem c9_allow_header_always (env : Env) (r : HttpRequest) :
    (postHandler env r).1.allow = some "POST" := by
  unfold postHandler
  repeat (first | rfl | split)

/-- C10: a POST request whose body decodes to an empty record list
yields the implicit success response (status 200, empty body), and
neither the mapper nor the delivery client is ever invoked. -/
theorem c10_empty_batch_success (env : Env) (r : HttpRequest)
    (rawBody : String) (hm : r.method = "POST") (hb : r.body = .ok rawBody)
    (hd : env.decode rawBody = .ok []) :
    postHandler env r =
      ({ status := 200, body := "", allow := some "POST" }, [], []) := by
  simp [postHandler, hm, hb, hd, processRecords]

/-- C10 witness: a concrete body decoding to an empty batch. -/
theorem c10_empty_batch_success_witness :
    ({ method := "POST", body := .ok "empty" } : HttpRequest).method = "POST" ∧
    testEnv.decode "empty" = .ok [] ∧
    postHandler testEnv { method := "POST", body := .ok "empty" } =
      ({ status := 200, body := "", allow := some "POST" }, [], []) :=
  ⟨rfl, rfl,
   c10_empty_batch_success testEnv { method := "POST", body := .ok "empty" }
     "empty" rfl rfl rfl⟩

/-- C3: the batch loop returns no error exactly when every record was
successfully mapped and delivered; in that case the delivery client
receives exactly the records' envelopes in their original order (hence
exactly N invocations for N records), and a POST request carrying such
a batch yields the empty-body success response. -/
theorem c3_batch_success_iff (env : Env) (records : List BucketNotification) :
    ((processRecords env records).1 = none ↔
      ∀ n ∈ records, recordOk env n = true) ∧
    ((∀ n ∈ records, recordOk env n = true) →
      (processRecords env records).2.2 = records.map (sentEvent env) ∧
      (processRecords env records).2.2.length = records.length) ∧
    (∀ r rawBody, r.method = "POST" → r.body = .ok rawBody →
      env.decode rawBody = .ok records →
      (∀ n ∈ records, recordOk env n = true) →
      postHandler env r =
        ({ status := 200, body := "", allow := some "POST" }, records,
         records.map (sentEvent env))) := by
  refine ⟨processRecords_ok_iff env records, ?_, ?_⟩
  · intro h
    rw [processRecords_all_ok env records h]
    simp
  · intro r rawBody hm hb hd h
    rw [postHandler_success env r rawBody records hm hb hd
          ((processRecords_ok_iff env records).mpr h),
        processRecords_all_ok env records h]

/-- C3 witness: a concrete two-record batch that fully succeeds. -/
theorem c3_batch_success_iff_witness :
    (∀ n ∈ [sampleRecord, record2], recordOk testEnv n = true) ∧
    postHandler testEnv { method := "POST", body := .ok "pair" } =
      ({ status := 200, body := "", allow := some "POST" },
       [sampleRecord, record2],
       [sampleRecord, record2].map (sentEvent testEnv)) :=
  ⟨by decide,
   (c3_batch_success_iff testEnv [sampleRecord, record2]).2.2
     { method := "POST", body := .ok "pair" } "pair" rfl rfl rfl (by decide)⟩

/-- C2 counterexample: in a one-record batch whose single record fails
at the mapping step (its payload serialization fails), record 1 is the
first record whose mapping or delivery fails, yet the delivery client
is invoked zero times, not once as the claim demands. -/
theorem c2_counterexample :
    recordOk testEnv poisonRecord = false ∧
    (processRecords testEnv [poisonRecord]).2.2.length = 0 ∧
    ¬ (processRecords testEnv [poisonRecord]).2.2.length = 1 :=
  ⟨rfl, rfl, by decide⟩

/-- C2 (amended): if record k (1-indexed) is the first record whose
mapping or delivery fails, processing stops at record k: the mapper is
invoked exactly on records 1..k, records after k are never mapped or
delivered, the error from record k is the batch outcome and is surfaced
in the HTTP error response, and the delivery client is invoked exactly
k times when record k failed at delivery but exactly k-1 times when it
failed at mapping (the failing record's envelope is then never sent).
Here pre is the list of the k-1 leading records. -/
theorem c2_fail_fast_amended (env : Env) (pre : List BucketNotification)
    (n : BucketNotification) (rest : List BucketNotification)
    (hpre : ∀ m ∈ pre, recordOk env m = true)
    (hn : recordOk env n = false) :
    (processRecords env (pre ++ n :: rest)).2.1 = pre ++ [n] ∧
    (processRecords env (pre ++ n :: rest)).1 = (postMessage env n).1 ∧
    (processRecords env (pre ++ n :: rest)).2.2 =
      pre.map (sentEvent env) ++ (postMessage env n).2 ∧
    (processRecords env (pre ++ n :: rest)).2.2.length =
      pre.length + (if (mapRecord env n).isOk then 1 else 0) ∧
    (∀ r rawBody e, r.method = "POST" → r.body = .ok rawBody →
      env.decode rawBody = .ok (pre ++ n :: rest) →
      (postMessage env n).1 = some e →
      postHandler env r =
        ({ status := 400, body := e, allow := some "POST" },
         pre ++ [n], pre.map (sentEvent env) ++ (postMessage env n).2)) := by
  have hf := processRecords_first_fail env pre n rest hpre hn
  refine ⟨by rw [hf], by rw [hf], by rw [hf], ?_, ?_⟩
  · rw [hf]
    simp [postMessage_sent_length]
  · intro r rawBody e hm hb hd he
    have h1 : (processRecords env (pre ++ n :: rest)).1 = some e := by
      rw [hf, he]
    rw [postHandler_failure env r rawBody (pre ++ n :: rest) e hm hb hd h1, hf]

/-- C2 witness: a concrete three-record batch whose second record's
envelope is rejected by the sink; the mapper runs on records 1 and 2,
the delivery client is invoked exactly twice, the third record is never
touched, and the HTTP response carries the sink's cause. -/
theorem c2_fail_fast_amended_witness :
    (∀ m ∈ [sampleRecord], recordOk testEnv m = true) ∧
    recordOk testEnv nackRecord = false ∧
    ((processRecords testEnv ([sampleRecord] ++ nackRecord :: [record2])).2.1 =
        [sampleRecord] ++ [nackRecord] ∧
     (processRecords testEnv ([sampleRecord] ++ nackRecord :: [record2])).1 =
        (postMessage testEnv nackRecord).1 ∧
     (processRecords testEnv ([sampleRecord] ++ nackRecord :: [record2])).2.2 =
        [sampleRecord].map (sentEvent testEnv) ++ (postMessage testEnv nackRecord).2 ∧
     (processRecords testEnv ([sampleRecord] ++ nackRecord :: [record2])).2.2.length =
        [sampleRecord].length +
          (if (mapRecord testEnv nackRecord).isOk then 1 else 0) ∧
     (∀ r rawBody e, r.method = "POST" → r.body = .ok rawBody →
        testEnv.decode rawBody = .ok ([sampleRecord] ++ nackRecord :: [record2]) →
        (postMessage testEnv nackRecord).1 = some e →
        postHandler testEnv r =
          ({ status := 400, body := e, allow := some "POST" },
           [sampleRecord] ++ [nackRecord],
           [sampleRecord].map (sentEvent testEnv) ++
             (postMessage testEnv nackRecord).2))) :=
  ⟨by decide, by decide,
   c2_fail_fast_amended testEnv [sampleRecord] nackRecord [record2]
     (by decide) (by decide)⟩

/-- C7: if all records before record n succeed and n's payload
serialization fails, then n's mapping fails with the wrapped
serialization error and produces no envelope, the loop halts at n (the
mapper is never invoked past n), the delivery client is invoked only
for the preceding records, and the serialization error is surfaced as
the HTTP error response. -/
theorem c7_serialization_failure (env : Env) (pre : List BucketNotification)
    (n : BucketNotification) (rest : List BucketNotification) (c : String)
    (hpre : ∀ m ∈ pre, recordOk env m = true)
    (hs : env.serialize n = .error c) :
    mapRecord env n = .error ("failed to marshal event data: " ++ c) ∧
    (processRecords env (pre ++ n :: rest)).1 =
      some ("failed to marshal event data: " ++ c) ∧
    (processRecords env (pre ++ n :: rest)).2.1 = pre ++ [n] ∧
    (processRecords env (pre ++ n :: rest)).2.2 = pre.map (sentEvent env) ∧
    (∀ r rawBody, r.method = "POST" → r.body = .ok rawBody →
      env.decode rawBody = .ok (pre ++ n :: rest) →
      postHandler env r =
        ({ status := 400, body := "failed to marshal event data: " ++ c,
           allow := some "POST" },
         pre ++ [n], pre.map (sentEvent env))) := by
  have hmap : mapRecord env n = .error ("failed to marshal event data: " ++ c) := by
    simp [mapRecord, hs]
  have hpm : postMessage env n =
      (some ("failed to marshal event data: " ++ c), []) := by
    simp [postMessage, hmap]
  have hn : recordOk env n = false :=
    recordOk_false_of_serialize_error env n c hs
  have hf := processRecords_first_fail env pre n rest hpre hn
  rw [hpm] at hf
  simp only [List.append_nil] at hf
  refine ⟨hmap, by rw [hf], by rw [hf], by rw [hf], ?_⟩
  intro r rawBody hm hb hd
  have h1 : (processRecords env (pre ++ n :: rest)).1 =
      some ("failed to marshal event data: " ++ c) := by rw [hf]
  rw [postHandler_failure env r rawBody (pre ++ n :: rest) _ hm hb hd h1, hf]

/-- C7 witness: a concrete three-record batch whose second record's
serialization fails. -/
theorem c7_serialization_failure_witness :
    (∀ m ∈ [sampleRecord], recordOk testEnv m = true) ∧
    testEnv.serialize poisonRecord = .error "boom" ∧
    (mapRecord testEnv poisonRecord =
        .error ("failed to marshal event data: " ++ "boom") ∧
     (processRecords testEnv ([sampleRecord] ++ poisonRecord :: [record2])).1 =
        some ("failed to marshal event data: " ++ "boom") ∧
     (processRecords testEnv ([sampleRecord] ++ poisonRecord :: [record2])).2.1 =
        [sampleRecord] ++ [poisonRecord] ∧
     (processRecords testEnv ([sampleRecord] ++ poisonRecord :: [record2])).2.2 =
        [sampleRecord].map (sentEvent testEnv) ∧
     (∀ r rawBody, r.method = "POST" → r.body = .ok rawBody →
        testEnv.decode rawBody = .ok ([sampleRecord] ++ poisonRecord :: [record2]) →
        postHandler testEnv r =
          ({ status := 400, body := "failed to marshal event data: " ++ "boom",
             allow := some "POST" },
           [sampleRecord] ++ [poisonRecord],
           [sampleRecord].map (sentEvent testEnv)))) :=
  ⟨by decide, rfl,
   c7_serialization_failure testEnv [sampleRecord] poisonRecord [record2] "boom"
     (by decide) rfl⟩

/-- C4 counterexample: a record whose eventTime fails to parse and
whose payload serialization fails is not mapped successfully — the
mapping returns the serialization error, so "the mapping still
succeeds" does not hold for every record with an unparsable
eventTime. -/
theorem c4_counterexample :
    testEnv.parseRFC3339 poisonBadTimeRecord.EventTime = none ∧
    mapRecord testEnv poisonBadTimeRecord =
      .error ("failed to marshal event data: " ++ "boom") :=
  ⟨rfl, rfl⟩

/-- C4 (amended): for every record whose eventTime fails to parse, the
parse failure is never propagated: whenever payload serialization
succeeds the mapping succeeds and the envelope's time is the current
wall-clock time, and any mapping error is the wrapped serialization
error, never the parse failure. -/
theorem c4_time_fallback_amended (env : Env) (n : BucketNotification)
    (hp : env.parseRFC3339 n.EventTime = none) :
    (∀ d, env.serialize n = .ok d →
      mapRecord env n = .ok (mkEvent env n d) ∧
      (mkEvent env n d).time = env.now) ∧
    (∀ e, mapRecord env n = .error e →
      ∃ c, env.serialize n = .error c ∧
        e = "failed to marshal event data: " ++ c) := by
  constructor
  · intro d hd
    exact ⟨by simp [mapRecord, hd], by simp [mkEvent, hp]⟩
  · intro e he
    cases hs : env.serialize n with
    | error c =>
      refine ⟨c, rfl, ?_⟩
      simp only [mapRecord, hs, Except.error.injEq] at he
      exact he.symm
    | ok d => simp [mapRecord, hs] at he

/-- C4 witness: a concrete record with an unparsable eventTime whose
serialization succeeds maps to an envelope timestamped with the current
time. -/
theorem c4_time_fallback_amended_witness :
    testEnv.parseRFC3339 badTimeRecord.EventTime = none ∧
    testEnv.serialize badTimeRecord = .ok "payload" ∧
    (mapRecord testEnv badTimeRecord = .ok (mkEvent testEnv badTimeRecord "payload") ∧
     (mkEvent testEnv badTimeRecord "payload").time = testEnv.now) :=
  ⟨rfl, rfl,
   (c4_time_fallback_amended testEnv badTimeRecord rfl).1 "payload" rfl⟩

/-- C8 counterexample: a record whose two correlation identifiers are
both empty strings is mapped to an envelope whose id is the empty
string — the code concatenates the identifiers without enforcing
non-emptiness. -/
theorem c8_counterexample :
    mapRecord testEnv emptyIdRecord = .ok (sentEvent testEnv emptyIdRecord) ∧
    (sentEvent testEnv emptyIdRecord).id = "" :=
  ⟨rfl, rfl⟩

/-- C8 (amended): for every record from which an envelope is produced,
the envelope's id is non-empty provided at least one of the record's
two correlation identifiers is non-empty; the mapper itself does not
enforce this. -/
theorem c8_id_nonempty_amended (env : Env) (n : BucketNotification)
    (ev : CloudEvent) (h : mapRecord env n = .ok ev)
    (hne : n.ResponseElements.XAmzRequestID ≠ "" ∨
           n.ResponseElements.XAmzID2 ≠ "") :
    ev.id ≠ "" := by
  obtain ⟨d, _, rfl⟩ := (mapRecord_eq_ok env n ev).mp h
  show n.ResponseElements.XAmzRequestID ++ n.ResponseElements.XAmzID2 ≠ ""
  intro hc
  have hd : (n.ResponseElements.XAmzRequestID ++
      n.ResponseElements.XAmzID2).data = ("" : String).data := by rw [hc]
  rw [String.data_append] at hd
  simp only [List.append_eq_nil] at hd
  rcases hne with hne | hne
  · exact hne (String.ext (by simp [hd.1]))
  · exact hne (String.ext (by simp [hd.2]))

/-- C8 witness: the scenario record, whose correlation identifiers are
"abc" and "123", yields an envelope with a non-empty id. -/
theorem c8_id_nonempty_amended_witness :
    mapRecord testEnv sampleRecord = .ok (sentEvent testEnv sampleRecord) ∧
    (sampleRecord.ResponseElements.XAmzRequestID ≠ "" ∨
     sampleRecord.ResponseElements.XAmzID2 ≠ "") ∧
    (sentEvent testEnv sampleRecord).id ≠ "" :=
  ⟨rfl, Or.inl (by decide),
   c8_id_nonempty_amended testEnv sampleRecord (sentEvent testEnv sampleRecord)
     rfl (Or.inl (by decide))⟩

end CephAdapter
